import Mathlib

/-!
# Verification of `scripts/setup_auth_auto.py`

A shallow embedding, in Lean 4, of the parts of the setup script that the
specification makes claims about:

* the OAuth callback handler `OAuthCallbackHandler.do_GET` and the shared
  class-level `CallbackResult` cell it mutates;
* the repository-slug resolution chain `_resolve_repo_slug`;
* the top-level exit-code dispatch of the `__main__` block;
* the secret-name groups for the password-based (Garmin) provider.

Each Python function becomes a pure Lean function; the mutable class-level
cell becomes explicit state passing (the handler takes the cell before the
request and returns the cell after it).  Query parameters are modelled after
`urllib.parse.parse_qs` with default `[""]`: an absent parameter and an empty
parameter are both the empty string, and Python string truthiness is
non-emptiness.
-/

namespace SetupAuth

/-- `CALLBACK_PATH` constant of the script. -/
def CALLBACK_PATH : String := "/exchange_token"

/-- `STATUS_OK` constant of the script. -/
def STATUS_OK : String := "OK"

/-- `STATUS_SKIPPED` constant of the script. -/
def STATUS_SKIPPED : String := "SKIPPED"

/-- `STATUS_MANUAL_REQUIRED` constant of the script. -/
def STATUS_MANUAL_REQUIRED : String := "MANUAL_REQUIRED"

/-- The `CallbackResult` dataclass: `code: Optional[str] = None`,
`error: Optional[str] = None`. -/
structure CallbackResult where
  code : Option String
  error : Option String
deriving Repr, DecidableEq

/-- The class-level initial value `CallbackResult()` stored on
`OAuthCallbackHandler`. -/
def CallbackResult.init : CallbackResult := { code := none, error := none }

/-- Python truthiness of an `Optional[str]`: truthy iff it is a non-empty
string. -/
def optStrTruthy : Option String → Bool
  | none => false
  | some s => s ≠ ""

/-- A parsed GET request as seen by `do_GET` after `urlparse`/`parse_qs`:
the URL path and the first values of the `state`, `code` and `error` query
parameters (defaulting to `""` when absent, as `query.get(k, [""])[0]`
does). -/
structure GetRequest where
  path : String
  state : String
  code : String
  error : String
deriving Repr, DecidableEq

/-- The response written back to the browser: `send_error(404, "Not Found")`
or a 200 response whose HTML body carries a message. -/
inductive HttpResponse where
  | notFound : HttpResponse
  | okHtml : String → HttpResponse
deriving Repr, DecidableEq

/-- HTTP status code of a response (`send_error(404, ...)` vs
`send_response(200)`). -/
def HttpResponse.statusCode : HttpResponse → Nat
  | .notFound => 404
  | .okHtml _ => 200

/-- `html.escape(s, quote=True)`: replaces `&`, `<`, `>`, `"` and the single
quote by their HTML entities. -/
def htmlEscapeChar (c : Char) : String :=
  if c = '&' then "&amp;"
  else if c = '<' then "&lt;"
  else if c = '>' then "&gt;"
  else if c = '"' then "&quot;"
  else if c = '\x27' then "&#x27;"
  else String.singleton c

/-- `html.escape` over a whole string. -/
def htmlEscape (s : String) : String :=
  String.join (s.toList.map htmlEscapeChar)

/-- The HTML page built by `do_GET` around the (escaped) message. -/
def htmlPage (safe_message : String) : String :=
  "<!doctype html><html><head><meta charset='utf-8'>" ++
  "<title>Strava Auth</title></head><body>" ++
  "<p>" ++ safe_message ++ "</p></body></html>"

/-- The success message of `do_GET`. -/
def successMessage : String :=
  "Authorization received. You can close this tab and return to the terminal."

/-- The cell update performed by the parameter checks of `do_GET` on the
callback path, in the order written in the source: provider `error`
parameter first, then missing `code`, then `state` mismatch, else store the
code.  All four branches assign one field of the shared class-level cell and
leave the other field as it was. -/
def handleCallbackParams (expected_state : String) (result : CallbackResult)
    (req : GetRequest) : CallbackResult :=
  if req.error ≠ "" then
    { result with error := some ("Strava returned error: " ++ req.error) }
  else if req.code = "" then
    { result with error := some "Missing code query parameter in callback URL." }
  else if req.state ≠ expected_state then
    { result with error := some "State mismatch in callback. Please retry." }
  else
    { result with code := some req.code }

/-- The message chosen by `do_GET` after the cell update: the failure page
whenever the (shared) cell's `error` field is truthy, the success
confirmation otherwise. -/
def callbackMessage (result : CallbackResult) : String :=
  if optStrTruthy result.error then
    "Authorization failed: " ++ result.error.getD ""
  else
    successMessage

/-- `OAuthCallbackHandler.do_GET`, as a function from the shared class-level
cell before the request and the parsed request to the cell after the request
together with the HTTP response.  A request whose path is not
`CALLBACK_PATH` is answered 404 and returns before touching the cell; a
request on the callback path runs the parameter checks, then always answers
200 with an HTML page whose message depends on the cell's `error` field. -/
def do_GET (expected_state : String) (result : CallbackResult)
    (req : GetRequest) : CallbackResult × HttpResponse :=
  if req.path ≠ CALLBACK_PATH then
    (result, HttpResponse.notFound)
  else
    let result := handleCallbackParams expected_state result req
    let message := callbackMessage result
    (result, HttpResponse.okHtml (htmlPage (htmlEscape message)))

/-! ## Repository-slug resolution (`_resolve_repo_slug`) -/

/-- The external inputs consulted by the slug-resolution helpers:
the stripped stdout of `git config --get remote.origin.url` (`none` when the
command exits non-zero), the `GH_REPO` environment variable, and the
stripped stdout of `gh repo view --json nameWithOwner --jq .nameWithOwner`
(`none` when that command exits non-zero). -/
structure RepoEnv where
  gitRemoteUrl : Option String
  ghRepoEnvVar : Option String
  ghContextOut : Option String

/-- `_repo_slug_from_git`: normalize the git remote URL, or `None` when the
git command failed.  `normalize` is the external collaborator
`_normalize_repo_slug` (re-exported from `repo_helpers`, outside this
source file), kept abstract. -/
def repo_slug_from_git (normalize : Option String → Option String)
    (env : RepoEnv) : Option String :=
  match env.gitRemoteUrl with
  | none => none
  | some out => normalize (some out)

/-- `_repo_slug_from_gh_context`: normalize the `gh repo view` output, or
`None` when the command failed. -/
def repo_slug_from_gh_context (normalize : Option String → Option String)
    (env : RepoEnv) : Option String :=
  match env.ghContextOut with
  | none => none
  | some out => normalize (some out)

/-- The loop body of `_resolve_repo_slug`: `normalized =
_normalize_repo_slug(candidate); if normalized: return normalized` —
a candidate is accepted when its normalization is a truthy (non-`None`,
non-empty) string. -/
def acceptCandidate (normalize : Option String → Option String)
    (candidate : Option String) : Option String :=
  match normalize candidate with
  | none => none
  | some s => if s = "" then none else some s

/-- The `for candidate in candidates` loop of `_resolve_repo_slug`,
returning at the first truthy normalization and `None` after the list is
exhausted. -/
def resolveLoop (normalize : Option String → Option String) :
    List (Option String) → Option String
  | [] => none
  | candidate :: rest =>
    match acceptCandidate normalize candidate with
    | some s => some s
    | none => resolveLoop normalize rest

/-- `_resolve_repo_slug`: builds the candidate list
`[explicit_repo, _repo_slug_from_git(), os.environ.get("GH_REPO"),
_repo_slug_from_gh_context()]` and runs the first-match loop over it. -/
def resolve_repo_slug (normalize : Option String → Option String)
    (env : RepoEnv) (explicit_repo : Option String) : Option String :=
  resolveLoop normalize
    [explicit_repo,
     repo_slug_from_git normalize env,
     env.ghRepoEnvVar,
     repo_slug_from_gh_context normalize env]

/-! ## Exit-code dispatch of the `__main__` block -/

/-- How the `try: raise SystemExit(main())` block terminates: `main()`
returned a value, a `KeyboardInterrupt` propagated, or some other
`Exception` propagated. -/
inductive MainTermination where
  | finished : Int → MainTermination
  | interrupted : MainTermination
  | failed : String → MainTermination
deriving Repr, DecidableEq

/-- The `__main__` block of the script: the returned value becomes the exit
code via `SystemExit(main())`; `KeyboardInterrupt` prints `Cancelled.` and
exits 130; any other exception prints the error and exits 1. -/
def scriptExitCode : MainTermination → Int
  | .finished n => n
  | .interrupted => 130
  | .failed _ => 1

/-! ## Step results and the orchestrator pipeline -/

/-- The `StepResult` dataclass: `name`, `status` (one of the three status
constants), `detail`, and `manual_help: Optional[str] = None`. -/
structure StepResult where
  name : String
  status : String
  detail : String
  manual_help : Option String
deriving Repr, DecidableEq

/-- Modelled from the spec: a successful step's `StepResult` ("OK" status,
no remediation text).  The orchestrator and synchronizer that produce
StepResults are absent from `src/scripts/setup_auth_auto.py` (only the
dataclass and the status constants remain), so producers follow the spec:
`manual_help` accompanies only `MANUAL_REQUIRED`. -/
def okStep (name : String) : StepResult :=
  { name := name, status := STATUS_OK, detail := name ++ " completed",
    manual_help := none }

/-- Modelled from the spec: a skipped step's `StepResult` (value absent →
`SKIPPED`, no remediation text). -/
def skippedStep (name reason : String) : StepResult :=
  { name := name, status := STATUS_SKIPPED, detail := reason,
    manual_help := none }

/-- Modelled from the spec: a degraded step's `StepResult` — "Every other
step's failure degrades to a MANUAL_REQUIRED StepResult" with concrete
remediation text. -/
def manualStep (name : String) : StepResult :=
  { name := name, status := STATUS_MANUAL_REQUIRED, detail := name ++ " failed",
    manual_help := some ("Complete the step manually: " ++ name) }

/-- The name of the credential-provisioning step, whose hard failure is the
only fatal one. -/
def CREDENTIAL_STEP : String := "provision credentials"

/-- The summary the orchestrator emits: the per-step results it produced
before stopping, plus the names of the steps reported fatal. -/
structure Summary where
  steps : List StepResult
  fatal : List String
deriving Repr, DecidableEq

/-- Modelled from the spec: the SetupOrchestrator step sequencer, absent
from `src/scripts/setup_auth_auto.py` (its `main`, lines 514-552, retains
only the `--local-only` stub).  Each planned step is a name plus whether it
fails; a failure of the credential-provisioning step halts the remaining
pipeline immediately and is recorded as the fatal step, any other failure
degrades to a `MANUAL_REQUIRED` StepResult and the run continues. -/
def runSteps : List (String × Bool) → Summary
  | [] => { steps := [], fatal := [] }
  | (name, failed) :: rest =>
    if failed then
      if name = CREDENTIAL_STEP then
        { steps := [], fatal := [name] }
      else
        let s := runSteps rest
        { steps := manualStep name :: s.steps, fatal := s.fatal }
    else
      let s := runSteps rest
      { steps := okStep name :: s.steps, fatal := s.fatal }

/-- Which steps of the fixed pipeline fail on a given run. -/
structure PipelineFailures where
  resolveRepoFails : Bool
  credentialsFail : Bool
  secretsFail : Bool
  variablesFail : Bool
  automationFail : Bool
deriving Repr, DecidableEq

/-- Modelled from the spec: the fixed step order of the orchestrator —
resolve target repository → provision credentials → synchronize secrets →
synchronize variables → remote automation. -/
def pipelineSteps (f : PipelineFailures) : List (String × Bool) :=
  [("resolve repository", f.resolveRepoFails),
   (CREDENTIAL_STEP, f.credentialsFail),
   ("synchronize secrets", f.secretsFail),
   ("synchronize variables", f.variablesFail),
   ("remote automation", f.automationFail)]

/-- Modelled from the spec: one orchestrated run over the fixed pipeline. -/
def orchestrate (f : PipelineFailures) : Summary :=
  runSteps (pipelineSteps f)

/-- Modelled from the spec: how `main` terminates — a fatal step raises and
the exception reaches the `__main__` handler, otherwise `main` returns 0
(success-or-degraded). -/
def mainTermination (f : PipelineFailures) : MainTermination :=
  match (orchestrate f).fatal with
  | [] => MainTermination.finished 0
  | name :: _ => MainTermination.failed (name ++ " failed")

/-! ## Garmin secret groups -/

/-- `GARMIN_PRIMARY_SECRET_NAMES = {"GARMIN_TOKENS_B64"}`. -/
def GARMIN_PRIMARY_SECRET_NAMES : List String := ["GARMIN_TOKENS_B64"]

/-- `GARMIN_FALLBACK_SECRET_NAMES = {"GARMIN_EMAIL", "GARMIN_PASSWORD"}`. -/
def GARMIN_FALLBACK_SECRET_NAMES : List String :=
  ["GARMIN_EMAIL", "GARMIN_PASSWORD"]

/-- Modelled from the spec: the RepoSecretSynchronizer satisfaction rule for
the password provider's secret group — "the single token-bundle secret OR
both of the two fallback secrets".  The synchronizer is absent from
`src/scripts/setup_auth_auto.py`; only the two name-set constants remain.
`present` tells which secret names are present. -/
def garminGroupSatisfied (present : String → Bool) : Bool :=
  GARMIN_PRIMARY_SECRET_NAMES.all present ||
  GARMIN_FALLBACK_SECRET_NAMES.all present

/-- Modelled from the spec: the still-missing members named by an
unsatisfied group.  When some fallback secret is present the run is on the
fallback alternative and the absent fallback names are reported; otherwise
every absent member of both sets is reported. -/
def garminGroupMissing (present : String → Bool) : List String :=
  if GARMIN_FALLBACK_SECRET_NAMES.any present then
    GARMIN_FALLBACK_SECRET_NAMES.filter (fun n => !(present n))
  else
    GARMIN_PRIMARY_SECRET_NAMES.filter (fun n => !(present n)) ++
    GARMIN_FALLBACK_SECRET_NAMES.filter (fun n => !(present n))

/-- Modelled from the spec: the aggregate `StepResult` of the password
provider's secret group — `OK` when satisfied, otherwise `MANUAL_REQUIRED`
naming every still-missing member. -/
def garminGroupResult (present : String → Bool) : StepResult :=
  if garminGroupSatisfied present then
    { name := "garmin secrets", status := STATUS_OK,
      detail := "required secret group satisfied", manual_help := none }
  else
    { name := "garmin secrets", status := STATUS_MANUAL_REQUIRED,
      detail := "missing: " ++ String.intercalate ", " (garminGroupMissing present),
      manual_help :=
        some ("Set the missing secrets manually: " ++
          String.intercalate ", " (garminGroupMissing present)) }

/-- The `StepResult` values the modelled producers can emit: successful,
skipped and degraded steps, and group aggregation results. -/
inductive ProducedStep : StepResult → Prop where
  | ok : ∀ name, ProducedStep (okStep name)
  | skipped : ∀ name reason, ProducedStep (skippedStep name reason)
  | manual : ∀ name, ProducedStep (manualStep name)
  | group : ∀ present, ProducedStep (garminGroupResult present)

/-! ## Helper lemmas -/

/-- A string append whose left part is non-empty is non-empty. -/
theorem append_ne_empty_of_left_ne_empty (s t : String) (h : s.length ≠ 0) :
    s ++ t ≠ "" := by
  intro he
  have hl := congrArg String.length he
  rw [String.length_append] at hl
  simp only [String.length_empty] at hl
  exact h (Nat.eq_zero_of_add_eq_zero_right hl)

/-- Appending to the failure-message prefix never yields the success
message (the two differ within their first characters). -/
theorem failure_message_ne_success (e : String) :
    "Authorization failed: " ++ e ≠ successMessage := by
  intro h
  have h2 : "Authorization failed: ".data ++ e.data = successMessage.data := by
    rw [← String.data_append, h]
  have h5 : ("Authorization failed: ".data ++ e.data)[14]? =
      successMessage.data[14]? := by rw [h2]
  rw [List.getElem?_append_left (by decide)] at h5
  exact absurd h5 (by decide)

/-! ## Theorems for the claims -/

/-- C1: On every GET request to the fixed callback path, the handler
evaluates the query parameters in the fixed priority order: a
provider-supplied `error` parameter first (resolving with that error), then
a missing `code` (resolving with the missing-code error), then a `state`
different from `expected_state` (resolving with the state-mismatch error),
and otherwise it stores the code.  Consequently a callback with matching
state, a code, and no error parameter resolves the fresh cell with `code`
set and `error` unset. -/
theorem callback_priority_order (expected : String) (r : CallbackResult)
    (req : GetRequest) (hpath : req.path = CALLBACK_PATH) :
    (req.error ≠ "" →
      (do_GET expected r req).1 =
        { r with error := some ("Strava returned error: " ++ req.error) }) ∧
    (req.error = "" → req.code = "" →
      (do_GET expected r req).1 =
        { r with error := some "Missing code query parameter in callback URL." }) ∧
    (req.error = "" → req.code ≠ "" → req.state ≠ expected →
      (do_GET expected r req).1 =
        { r with error := some "State mismatch in callback. Please retry." }) ∧
    (req.error = "" → req.code ≠ "" → req.state = expected →
      (do_GET expected r req).1 = { r with code := some req.code }) ∧
    (req.error = "" → req.code ≠ "" → req.state = expected →
      (do_GET expected CallbackResult.init req).1.code = some req.code ∧
      (do_GET expected CallbackResult.init req).1.error = none) := by
  refine ⟨?_, ?_, ?_, ?_, ?_⟩ <;> intros <;>
    simp [do_GET, handleCallbackParams, hpath, CallbackResult.init, *]

/-- Witness for C1: a concrete valid callback resolves the fresh cell with
the code and no error. -/
theorem callback_priority_order_witness :
    (do_GET "st" CallbackResult.init
      { path := CALLBACK_PATH, state := "st", code := "abc", error := "" }).1.code
        = some "abc" ∧
    (do_GET "st" CallbackResult.init
      { path := CALLBACK_PATH, state := "st", code := "abc", error := "" }).1.error
        = none :=
  (callback_priority_order "st" CallbackResult.init
    { path := CALLBACK_PATH, state := "st", code := "abc", error := "" }
    rfl).2.2.2.2 rfl (by decide) rfl

/-- C2 is false on the code: the handler writes to the shared class-level
cell unconditionally, so a second valid request overwrites the code stored
by the first one. -/
theorem first_write_wins_counterexample :
    ((do_GET "st" CallbackResult.init
        { path := "/exchange_token", state := "st", code := "codeA", error := "" }).1.code
      = some "codeA") ∧
    ((do_GET "st"
        (do_GET "st" CallbackResult.init
          { path := "/exchange_token", state := "st", code := "codeA", error := "" }).1
        { path := "/exchange_token", state := "st", code := "codeB", error := "" }).1.code
      = some "codeB") := by
  exact ⟨rfl, rfl⟩

/-- C2 (amended): writes to the cell are not first-write-wins — every
request on the callback path mutates the shared cell, and in particular a
valid request stores its own code regardless of what the cell already
held. -/
theorem callback_write_unconditional (expected : String) (r : CallbackResult)
    (req : GetRequest) (hpath : req.path = CALLBACK_PATH)
    (herr : req.error = "") (hcode : req.code ≠ "")
    (hstate : req.state = expected) :
    (do_GET expected r req).1.code = some req.code := by
  simp [do_GET, handleCallbackParams, hpath, herr, hcode, hstate]

/-- Witness for the amended C2: a valid request overwrites an
already-stored code. -/
theorem callback_write_unconditional_witness :
    (do_GET "st" { code := some "old", error := none }
      { path := CALLBACK_PATH, state := "st", code := "new", error := "" }).1.code
      = some "new" :=
  callback_write_unconditional "st" { code := some "old", error := none }
    { path := CALLBACK_PATH, state := "st", code := "new", error := "" }
    rfl rfl (by decide) rfl

/-- C3 is false on the code: after a valid request stores a code, a second
request carrying a provider error sets the `error` field while the stored
`code` survives, so both fields are set and the resolved cell was
mutated. -/
theorem at_most_one_field_counterexample :
    (do_GET "st"
        (do_GET "st" CallbackResult.init
          { path := "/exchange_token", state := "st", code := "codeA", error := "" }).1
        { path := "/exchange_token", state := "st", code := "", error := "denied" }).1
      = { code := some "codeA", error := some "Strava returned error: denied" } := by
  exact rfl

/-- C3 (amended): after a single callback request resolves the fresh cell,
at most one of `code`/`error` is set; the cell is however not immutable —
later requests within the same attempt keep mutating it. -/
theorem at_most_one_field_fresh (expected : String) (req : GetRequest)
    (hpath : req.path = CALLBACK_PATH) :
    (do_GET expected CallbackResult.init req).1.code = none ∨
    (do_GET expected CallbackResult.init req).1.error = none := by
  simp only [do_GET, hpath, CALLBACK_PATH]
  unfold handleCallbackParams
  split_ifs <;> simp [CallbackResult.init]

/-- Witness for the amended C3: a concrete valid callback on the fresh cell
leaves one of the two fields unset. -/
theorem at_most_one_field_fresh_witness :
    (do_GET "st" CallbackResult.init
      { path := CALLBACK_PATH, state := "st", code := "abc", error := "" }).1.code = none ∨
    (do_GET "st" CallbackResult.init
      { path := CALLBACK_PATH, state := "st", code := "abc", error := "" }).1.error = none :=
  at_most_one_field_fresh "st"
    { path := CALLBACK_PATH, state := "st", code := "abc", error := "" } rfl

/-- C7: a GET request whose path is not the callback path is answered 404
and leaves the cell untouched; a GET request on the callback path is always
answered 200 with an HTML page, whatever the parameter checks decide. -/
theorem route_dispatch (expected : String) (r : CallbackResult)
    (req : GetRequest) :
    (req.path ≠ CALLBACK_PATH →
      do_GET expected r req = (r, HttpResponse.notFound) ∧
      ((do_GET expected r req).2).statusCode = 404) ∧
    (req.path = CALLBACK_PATH →
      (do_GET expected r req).2 =
        HttpResponse.okHtml
          (htmlPage (htmlEscape (callbackMessage
            (handleCallbackParams expected r req)))) ∧
      ((do_GET expected r req).2).statusCode = 200) := by
  constructor <;> intro h <;>
    simp [do_GET, h, HttpResponse.statusCode]

/-- Witness for C7: a concrete request to a different path gets 404 with an
unchanged cell, and a concrete callback-path request gets 200. -/
theorem route_dispatch_witness :
    (do_GET "st" CallbackResult.init
      { path := "/other", state := "", code := "", error := "" } =
      (CallbackResult.init, HttpResponse.notFound)) ∧
    ((do_GET "st" CallbackResult.init
      { path := CALLBACK_PATH, state := "st", code := "abc", error := "" }).2).statusCode
      = 200 :=
  ⟨((route_dispatch "st" CallbackResult.init
      { path := "/other", state := "", code := "", error := "" }).1 (by decide)).1,
   ((route_dispatch "st" CallbackResult.init
      { path := CALLBACK_PATH, state := "st", code := "abc", error := "" }).2 rfl).2⟩

/-- C10: the rendered page depends on the shared cell's `error` field, not
on the request's own outcome — once the cell holds an error, a later valid
request (matching state, code present, no error parameter) still stores its
code but is shown the Authorization-failed page, which is never the success
confirmation. -/
theorem stale_error_shadows_success (expected : String) (r : CallbackResult)
    (req : GetRequest) (e : String)
    (herr : r.error = some e) (hne : e ≠ "")
    (hpath : req.path = CALLBACK_PATH) (hqerr : req.error = "")
    (hcode : req.code ≠ "") (hstate : req.state = expected) :
    (do_GET expected r req).1.code = some req.code ∧
    (do_GET expected r req).2 =
      HttpResponse.okHtml (htmlPage (htmlEscape ("Authorization failed: " ++ e))) ∧
    "Authorization failed: " ++ e ≠ successMessage := by
  refine ⟨?_, ?_, failure_message_ne_success e⟩ <;>
    simp [do_GET, handleCallbackParams, callbackMessage, optStrTruthy,
      hpath, hqerr, hcode, hstate, herr, hne]

/-- Witness for C10: with a concrete stale error in the cell, a concrete
valid request stores its code yet is shown the failure page. -/
theorem stale_error_shadows_success_witness :
    (do_GET "st" { code := none, error := some "Strava returned error: denied" }
      { path := CALLBACK_PATH, state := "st", code := "abc", error := "" }).1.code
      = some "abc" ∧
    (do_GET "st" { code := none, error := some "Strava returned error: denied" }
      { path := CALLBACK_PATH, state := "st", code := "abc", error := "" }).2 =
      HttpResponse.okHtml (htmlPage (htmlEscape
        ("Authorization failed: " ++ "Strava returned error: denied"))) ∧
    "Authorization failed: " ++ "Strava returned error: denied" ≠ successMessage :=
  stale_error_shadows_success "st"
    { code := none, error := some "Strava returned error: denied" }
    { path := CALLBACK_PATH, state := "st", code := "abc", error := "" }
    "Strava returned error: denied" rfl (by decide) rfl rfl (by decide) rfl

/-- The loop of `_resolve_repo_slug` is the first-match combinator over its
candidate list. -/
theorem resolveLoop_eq_findSome? (normalize : Option String → Option String)
    (l : List (Option String)) :
    resolveLoop normalize l = l.findSome? (acceptCandidate normalize) := by
  induction l with
  | nil => rfl
  | cons candidate rest ih =>
    unfold resolveLoop
    rw [List.findSome?_cons]
    cases acceptCandidate normalize candidate <;> simp [ih]

/-- C9: `_resolve_repo_slug` resolves the slug by trying, in this fixed
precedence order, the explicit repo argument, the git `remote.origin.url`,
the `GH_REPO` environment variable, and the gh CLI repository context,
returning the first candidate whose normalization is a non-empty slug and
`None` exactly when every candidate fails to normalize. -/
theorem resolve_repo_slug_first_match
    (normalize : Option String → Option String) (env : RepoEnv)
    (explicit_repo : Option String) :
    resolve_repo_slug normalize env explicit_repo =
      List.findSome? (acceptCandidate normalize)
        [explicit_repo,
         repo_slug_from_git normalize env,
         env.ghRepoEnvVar,
         repo_slug_from_gh_context normalize env] ∧
    (resolve_repo_slug normalize env explicit_repo = none ↔
      ∀ candidate ∈ [explicit_repo,
           repo_slug_from_git normalize env,
           env.ghRepoEnvVar,
           repo_slug_from_gh_context normalize env],
        acceptCandidate normalize candidate = none) := by
  constructor
  · exact resolveLoop_eq_findSome? normalize _
  · rw [resolve_repo_slug, resolveLoop_eq_findSome? normalize]
    exact List.findSome?_eq_none_iff

/-- Witness for C9: with an identity-like normalizer and no git/gh/env
candidates, the explicit argument is the first accepted candidate. -/
theorem resolve_repo_slug_first_match_witness :
    resolve_repo_slug (fun c => c)
      { gitRemoteUrl := none, ghRepoEnvVar := none, ghContextOut := none }
      (some "owner/repo") = some "owner/repo" := by
  have h := (resolve_repo_slug_first_match (fun c => c)
    { gitRemoteUrl := none, ghRepoEnvVar := none, ghContextOut := none }
    (some "owner/repo")).1
  rw [h]
  rfl

set_option synthInstance.maxSize 2000 in
/-- C4: a hard failure of credential provisioning halts the pipeline and is
the sole fatal step, the summary then contains no secret/variable
synchronization steps; any other step's failure degrades to a
`MANUAL_REQUIRED` StepResult while the run continues through all five
steps; and the process outcome is success whenever no step was fatal. -/
theorem orchestrator_fatal_policy (f : PipelineFailures) :
    (f.credentialsFail = true →
      (orchestrate f).fatal = [CREDENTIAL_STEP] ∧
      (∀ s ∈ (orchestrate f).steps,
        s.name ≠ "synchronize secrets" ∧ s.name ≠ "synchronize variables")) ∧
    (f.credentialsFail = false →
      (orchestrate f).fatal = [] ∧
      (orchestrate f).steps.map StepResult.name =
        ["resolve repository", CREDENTIAL_STEP, "synchronize secrets",
         "synchronize variables", "remote automation"] ∧
      (∀ s ∈ (orchestrate f).steps,
        s.status = STATUS_OK ∨ s.status = STATUS_MANUAL_REQUIRED) ∧
      (f.secretsFail = true →
        manualStep "synchronize secrets" ∈ (orchestrate f).steps) ∧
      (f.variablesFail = true →
        manualStep "synchronize variables" ∈ (orchestrate f).steps) ∧
      (f.automationFail = true →
        manualStep "remote automation" ∈ (orchestrate f).steps) ∧
      (f.resolveRepoFails = true →
        manualStep "resolve repository" ∈ (orchestrate f).steps)) ∧
    ((orchestrate f).fatal = [] → scriptExitCode (mainTermination f) = 0) := by
  obtain ⟨r, c, s, v, a⟩ := f
  cases r <;> cases c <;> cases s <;> cases v <;> cases a <;> decide

/-- Witness for C4: with only credential provisioning failing, the summary
has the credential step as its sole fatal step. -/
theorem orchestrator_fatal_policy_witness :
    (orchestrate
      { resolveRepoFails := false, credentialsFail := true,
        secretsFail := false, variablesFail := false,
        automationFail := false }).fatal = [CREDENTIAL_STEP] :=
  ((orchestrator_fatal_policy
    { resolveRepoFails := false, credentialsFail := true,
      secretsFail := false, variablesFail := false,
      automationFail := false }).1 rfl).1

/-- C5: the process exit code is 0 for a successful or degraded run, 1 for
a fatal run, 130 (distinct from both) for an operator interruption, and a
non-interrupted run exits non-zero exactly when a step was fatal. -/
theorem exit_code_policy (f : PipelineFailures) :
    ((orchestrate f).fatal = [] → scriptExitCode (mainTermination f) = 0) ∧
    ((orchestrate f).fatal ≠ [] → scriptExitCode (mainTermination f) = 1) ∧
    scriptExitCode MainTermination.interrupted = 130 ∧
    scriptExitCode MainTermination.interrupted ≠ 0 ∧
    scriptExitCode MainTermination.interrupted ≠ 1 ∧
    (scriptExitCode (mainTermination f) ≠ 0 ↔ (orchestrate f).fatal ≠ []) := by
  rcases hf : (orchestrate f).fatal with _ | ⟨n, rest⟩ <;>
    simp [mainTermination, hf, scriptExitCode]

/-- Witness for C5: an all-successful run exits 0 and a
credential-provisioning failure exits 1. -/
theorem exit_code_policy_witness :
    scriptExitCode (mainTermination
      { resolveRepoFails := false, credentialsFail := false,
        secretsFail := false, variablesFail := false,
        automationFail := false }) = 0 ∧
    scriptExitCode (mainTermination
      { resolveRepoFails := false, credentialsFail := true,
        secretsFail := false, variablesFail := false,
        automationFail := false }) = 1 :=
  ⟨(exit_code_policy
      { resolveRepoFails := false, credentialsFail := false,
        secretsFail := false, variablesFail := false,
        automationFail := false }).1 (by decide),
   (exit_code_policy
      { resolveRepoFails := false, credentialsFail := true,
        secretsFail := false, variablesFail := false,
        automationFail := false }).2.1 (by decide)⟩

/-- C6: the Garmin secret group is satisfied iff the token-bundle secret is
present or both fallback secrets are; both fallbacks present (without the
token bundle) reports `OK`, and exactly one fallback present reports
`MANUAL_REQUIRED` naming exactly the missing secret name. -/
theorem garmin_group_satisfaction (present : String → Bool) :
    (garminGroupSatisfied present = true ↔
      (present "GARMIN_TOKENS_B64" = true ∨
       (present "GARMIN_EMAIL" = true ∧ present "GARMIN_PASSWORD" = true))) ∧
    (present "GARMIN_TOKENS_B64" = false → present "GARMIN_EMAIL" = true →
      present "GARMIN_PASSWORD" = true →
      (garminGroupResult present).status = STATUS_OK) ∧
    (present "GARMIN_TOKENS_B64" = false → present "GARMIN_EMAIL" = true →
      present "GARMIN_PASSWORD" = false →
      (garminGroupResult present).status = STATUS_MANUAL_REQUIRED ∧
      garminGroupMissing present = ["GARMIN_PASSWORD"]) ∧
    (present "GARMIN_TOKENS_B64" = false → present "GARMIN_EMAIL" = false →
      present "GARMIN_PASSWORD" = true →
      (garminGroupResult present).status = STATUS_MANUAL_REQUIRED ∧
      garminGroupMissing present = ["GARMIN_EMAIL"]) := by
  refine ⟨?_, ?_, ?_, ?_⟩ <;> intros <;>
    simp_all [garminGroupSatisfied, garminGroupResult, garminGroupMissing,
      GARMIN_PRIMARY_SECRET_NAMES, GARMIN_FALLBACK_SECRET_NAMES,
      STATUS_OK, STATUS_MANUAL_REQUIRED, STATUS_SKIPPED]

/-- Witness for C6: with only the email secret present, the group names
exactly the password secret as missing. -/
theorem garmin_group_satisfaction_witness :
    (garminGroupResult (fun n => n == "GARMIN_EMAIL")).status
      = STATUS_MANUAL_REQUIRED ∧
    garminGroupMissing (fun n => n == "GARMIN_EMAIL") = ["GARMIN_PASSWORD"] :=
  (garmin_group_satisfaction (fun n => n == "GARMIN_EMAIL")).2.2.1
    (by decide) (by decide) (by decide)

/-- C8: for every StepResult the modelled producers emit, `manual_help` is
non-empty exactly when the status is `MANUAL_REQUIRED`. -/
theorem manual_help_iff_manual_required (s : StepResult)
    (h : ProducedStep s) :
    optStrTruthy s.manual_help = true ↔ s.status = STATUS_MANUAL_REQUIRED := by
  cases h with
  | ok name =>
    simp [okStep, optStrTruthy, STATUS_OK, STATUS_MANUAL_REQUIRED]
  | skipped name reason =>
    simp [skippedStep, optStrTruthy, STATUS_SKIPPED, STATUS_MANUAL_REQUIRED]
  | manual name =>
    have hne : ("Complete the step manually: " ++ name) ≠ "" :=
      append_ne_empty_of_left_ne_empty _ name (by decide)
    simp [manualStep, optStrTruthy, hne]
  | group present =>
    unfold garminGroupResult
    split_ifs with hs
    · simp [optStrTruthy, STATUS_OK, STATUS_MANUAL_REQUIRED]
    · have hne : ("Set the missing secrets manually: " ++
          String.intercalate ", " (garminGroupMissing present)) ≠ "" :=
        append_ne_empty_of_left_ne_empty _ _ (by decide)
      simp [optStrTruthy, hne]

/-- Witness for C8: a concrete degraded step has non-empty `manual_help`
and `MANUAL_REQUIRED` status, as the equivalence at that step demands. -/
theorem manual_help_iff_manual_required_witness :
    optStrTruthy (manualStep "synchronize secrets").manual_help = true ↔
      (manualStep "synchronize secrets").status = STATUS_MANUAL_REQUIRED :=
  manual_help_iff_manual_required (manualStep "synchronize secrets")
    (ProducedStep.manual "synchronize secrets")

end SetupAuth
